import Mathlib

/-!
Verification of the resilient data-access and reconciliation layer of a
clock-in/clock-out time tracker (`server.js`, `config/index.js`).

The JavaScript source is shallowly embedded: timestamps are epoch
milliseconds (`Int`), JavaScript number arithmetic on durations is modelled
over `ℚ`, fallible remote operations are `Except String`, and JavaScript
string-truthiness is modelled by comparison with the empty string.
-/

/-- Predicate `listStartsWith hay needle` is true when `needle` is a prefix of `hay`
(character-list view of JavaScript `String.prototype.startsWith`). -/
def listStartsWith : List Char → List Char → Bool
  | _, [] => true
  | [], _ :: _ => false
  | a :: as, b :: bs => a = b && listStartsWith as bs

/-- Predicate `listHasSub hay needle` is true when `needle` occurs contiguously inside
`hay`; together with `strIncludes` it models `String.prototype.includes`. -/
def listHasSub : List Char → List Char → Bool
  | [], needle => needle.isEmpty
  | hay@(_ :: tl), needle => listStartsWith hay needle || listHasSub tl needle

/-- JavaScript `s.includes(t)`. -/
def strIncludes (s t : String) : Bool :=
  listHasSub s.toList t.toList

/-- One step of splitting a character list into whitespace-separated
words, from the right. -/
def wordsAux (p : Char → Bool) (c : Char) (acc : List (List Char)) : List (List Char) :=
  if p c then [] :: acc
  else
    match acc with
    | [] => [[c]]
    | w :: ws => (c :: w) :: ws

/-- The whitespace-separated words of a character list. -/
def wordsOf (l : List Char) : List (List Char) :=
  (l.foldr (wordsAux Char.isWhitespace) []).filter (· ≠ [])

/-- Function `normalizeEmployeeName` from `server.js`: trim, collapse internal
whitespace runs to one space, lowercase.  (`name.toString().trim()
.replace(/\s+/g, ' ').toLowerCase()`; a `null` name, modelled as `""`,
normalizes to `""`.) -/
def normalizeEmployeeName (name : String) : String :=
  String.mk ((List.intercalate [' '] (wordsOf name.toList)).map Char.toLower)

/-- Function `isNameMatch` from `server.js`: false when either raw name is falsy
(empty), otherwise equality of the normalized forms or containment of one
normalized form in the other, in either direction. -/
def isNameMatch (inputName compareName : String) : Bool :=
  if inputName = "" || compareName = "" then false
  else
    let ni := normalizeEmployeeName inputName
    let nc := normalizeEmployeeName compareName
    ni = nc || strIncludes ni nc || strIncludes nc ni

/-- A timestamp string as the two parsers of `server.js` see it:
`.empty` is a falsy (missing) string, `.bad` a string the parser rejects,
and `.parsed ms ymd` a string parsed to epoch millisecond instant `ms`
whose `YYYY-MM-DD` calendar rendering in the configured timezone is `ymd`. -/
inductive TS where
  | empty
  | bad
  | parsed (ms : Int) (ymd : String)
deriving DecidableEq, Repr

/-- The `YYYY-MM-DD` rendering used for the sweeper's same-day check; an
invalid moment renders as `"Invalid date"`. -/
def TS.dateOf : TS → String
  | .parsed _ ymd => ymd
  | _ => "Invalid date"

/-- Function `calculateWorkingHours(clockInTime, clockOutTime)` from `server.js`:
0 when the clock-in is missing or fails to parse, 0 when a supplied
clock-out fails to parse, otherwise the difference to the clock-out
instant (or to the current time `now` when no clock-out is supplied) in
fractional hours, reported as 0 when negative. -/
def calculateWorkingHours (clockInTime clockOutTime : TS) (now : Int) : ℚ :=
  match clockInTime with
  | .empty => 0
  | .bad => 0
  | .parsed tin _ =>
    match clockOutTime with
    | .empty =>
      let hours : ℚ := ((now - tin : ℤ) : ℚ) / 3600000
      if 0 ≤ hours then hours else 0
    | .bad => 0
    | .parsed tout _ =>
      let hours : ℚ := ((tout - tin : ℤ) : ℚ) / 3600000
      if 0 ≤ hours then hours else 0

/-- The worked-hours computation as the specification words it: clock-out
instant minus clock-in instant in fractional hours, floored at zero, and 0
whenever the clock-in is missing or either timestamp fails to parse (a
missing clock-out means the live "currently working" display, which uses
the current instant). -/
def specWorkedHours (clockInTime clockOutTime : TS) (now : Int) : ℚ :=
  match clockInTime, clockOutTime with
  | .parsed tin _, .parsed tout _ => max 0 (((tout - tin : ℤ) : ℚ) / 3600000)
  | .parsed tin _, .empty => max 0 (((now - tin : ℤ) : ℚ) / 3600000)
  | _, _ => 0

/-- epoch ms of `2025-01-01 08:00:00` Asia/Bangkok (= `2025-01-01T01:00:00Z`). -/
def exampleClockInMs : Int := 1735693200000

/-- epoch ms of `2025-01-01 17:30:00` Asia/Bangkok (= `2025-01-01T10:30:00Z`). -/
def exampleClockOutMs : Int := 1735727400000

/-- C3: `calculateWorkingHours` (also used for the live currently-working
display) equals the spec's description — clock-out minus clock-in in
fractional hours, floored at zero, 0 on a missing clock-in or an
unparseable timestamp — it is never negative, and the pair
`2025-01-01 08:00:00` / `2025-01-01 17:30:00` yields 9.50 hours. -/
theorem calculateWorkingHours_spec :
    (∀ cin cout now, calculateWorkingHours cin cout now = specWorkedHours cin cout now)
    ∧ (∀ cin cout now, 0 ≤ calculateWorkingHours cin cout now)
    ∧ calculateWorkingHours (.parsed exampleClockInMs "2025-01-01")
        (.parsed exampleClockOutMs "2025-01-01") 0 = 19 / 2 := by
  refine ⟨?_, ?_, ?_⟩
  · intro cin cout now
    cases cin <;> cases cout <;>
      simp [calculateWorkingHours, specWorkedHours, max_def]
  · intro cin cout now
    cases cin <;> cases cout <;> simp [calculateWorkingHours] <;> split <;> simp_all
  · norm_num [calculateWorkingHours, exampleClockInMs, exampleClockOutMs]

/-! ## APIMonitor (`server.js`): call-budget limiter -/

/-- Constant `this.maxCallsPerMinute = 100` in the `APIMonitor` constructor. -/
def maxCallsPerMinute : Int := 100

/-- Constant `this.maxCallsPerHour = 1000` in the `APIMonitor` constructor. -/
def maxCallsPerHour : Int := 1000

/-- Constant `this.burstLimit = 75` in the `APIMonitor` constructor. -/
def burstLimit : Int := 75

/-- The mutable state of `APIMonitor`: the call log (timestamps, epoch ms)
and the burst counter. -/
structure APIMonitorState where
  apiCalls : List Int
  currentBurst : Int
deriving DecidableEq, Repr

/-- Fresh `APIMonitor` state (empty log, zero burst). -/
def initMonitor : APIMonitorState := ⟨[], 0⟩

/-- Calls recorded in the trailing 60 seconds
(`this.apiCalls.filter(call => (now - call.timestamp) < 60000).length`). -/
def callsInLastMinute (st : APIMonitorState) (now : Int) : Int :=
  (st.apiCalls.filter (fun t => now - t < 60000)).length

/-- Method `APIMonitor.canMakeAPICall`: false when the burst counter has reached
the burst ceiling, or the trailing-minute count has reached the per-minute
ceiling, or the call-log length (the trailing-hour count, thanks to
pruning) has reached the per-hour ceiling; on success the burst counter is
incremented.  Returns the boolean together with the updated state. -/
def canMakeAPICall (st : APIMonitorState) (now : Int) : Bool × APIMonitorState :=
  if burstLimit ≤ st.currentBurst then (false, st)
  else if maxCallsPerMinute ≤ callsInLastMinute st now then (false, st)
  else if maxCallsPerHour ≤ (st.apiCalls.length : Int) then (false, st)
  else (true, { st with currentBurst := st.currentBurst + 1 })

/-- Method `APIMonitor.logAPICall`: push a timestamped entry, then prune entries
older than one hour. -/
def logAPICall (st : APIMonitorState) (now : Int) : APIMonitorState :=
  { st with apiCalls := (st.apiCalls ++ [now]).filter (fun t => now - t < 3600000) }

/-- The acquisition pattern at every call site (`getCachedSheetData`):
`canMakeAPICall()`, and exactly when it returns true, `logAPICall(...)`. -/
def tryAcquire (st : APIMonitorState) (now : Int) : Bool × APIMonitorState :=
  match canMakeAPICall st now with
  | (true, st') => (true, logAPICall st' now)
  | (false, st') => (false, st')

/-- Method `APIMonitor.finishCall`: decrement the burst counter, never below zero. -/
def finishCall (st : APIMonitorState) : APIMonitorState :=
  if 0 < st.currentBurst then { st with currentBurst := st.currentBurst - 1 } else st

/-- One full acquire/release cycle as `getCachedSheetData` performs it on a
successful remote call. -/
def acquireReleaseCycle (now : Int) (st : APIMonitorState) : APIMonitorState :=
  finishCall (tryAcquire st now).2

/-- State after `n` complete acquire/release cycles, all at instant `now`. -/
def cyclesAt (now : Int) (n : Nat) : APIMonitorState :=
  (acquireReleaseCycle now)^[n] initMonitor

set_option maxRecDepth 40000 in
/-- C4: the limiter denies acquisition whenever the burst count is at or
above the burst ceiling, or the trailing-minute count is at or above the
per-minute ceiling, or the trailing-hour count is at or above the per-hour
ceiling; a successful acquisition increments the burst counter and records
a timestamped pruned log entry; and concretely, after `N = 100` (the
per-minute ceiling) acquisitions at instant 0 the next acquisition at
instant 0 is denied, while at instant 60000 (the window having rolled past
the old entries) it succeeds again. -/
theorem canMakeAPICall_limiter_spec :
    (∀ st now, burstLimit ≤ st.currentBurst ∨
        maxCallsPerMinute ≤ callsInLastMinute st now ∨
        maxCallsPerHour ≤ (st.apiCalls.length : Int) →
        tryAcquire st now = (false, st))
    ∧ (∀ st now, st.currentBurst < burstLimit →
        callsInLastMinute st now < maxCallsPerMinute →
        (st.apiCalls.length : Int) < maxCallsPerHour →
        tryAcquire st now =
          (true, { apiCalls := (st.apiCalls ++ [now]).filter (fun t => now - t < 3600000),
                   currentBurst := st.currentBurst + 1 }))
    ∧ (tryAcquire (cyclesAt 0 100) 0).1 = false
    ∧ (tryAcquire (cyclesAt 0 100) 60000).1 = true := by
  refine ⟨?_, ?_, ?_, ?_⟩
  · intro st now h
    unfold tryAcquire canMakeAPICall
    by_cases h1 : burstLimit ≤ st.currentBurst
    · simp [h1]
    · by_cases h2 : maxCallsPerMinute ≤ callsInLastMinute st now
      · simp [h1, h2]
      · by_cases h3 : maxCallsPerHour ≤ (st.apiCalls.length : Int)
        · simp [h1, h2, h3]
        · rcases h with h | h | h <;> omega
  · intro st now h1 h2 h3
    unfold tryAcquire canMakeAPICall
    rw [if_neg (by omega), if_neg (by omega), if_neg (by omega)]
    rfl
  · decide
  · decide

/-- Witness for `canMakeAPICall_limiter_spec`: with the burst counter
pinned at the ceiling, acquisition is denied and the state is untouched. -/
theorem canMakeAPICall_limiter_spec_witness :
    tryAcquire ⟨[], 75⟩ 0 = (false, ⟨[], 75⟩) :=
  canMakeAPICall_limiter_spec.1 ⟨[], 75⟩ 0 (Or.inl (by decide))

/-! ## Dataset cache and resilient fetch (`GoogleSheetsService`) -/

/-- One entry of `this.cache`: payload, last-fetch timestamp, TTL (ms).
A `none` payload/timestamp is JavaScript `null`. -/
structure CacheEntry (ρ : Type) where
  data : Option (List ρ)
  timestamp : Option Int
  ttl : Int
deriving DecidableEq, Repr

/-- Method `isCacheValid`: false when the entry is missing or its `data` or
`timestamp` field is falsy (`null`, or the number 0 for the timestamp),
otherwise `Date.now() - timestamp < ttl`. -/
def isCacheValid {ρ : Type} (entry : Option (CacheEntry ρ)) (now : Int) : Bool :=
  match entry with
  | none => false
  | some e =>
    e.data.isSome &&
      (match e.timestamp with
       | none => false
       | some t => !(t = 0) && decide (now - t < e.ttl))

/-- Method `getCache`: the stored payload, or `null`; an empty array is truthy in
JavaScript, so an empty stored payload is still returned. -/
def getCache {ρ : Type} (entry : Option (CacheEntry ρ)) : Option (List ρ) :=
  entry.bind (·.data)

/-- Method `setCache`: store the payload, stamp the current time, and keep the
entry's configured TTL — creating the entry with the 300000 ms default TTL
when it did not exist. -/
def setCache {ρ : Type} (entry : Option (CacheEntry ρ)) (payload : List ρ) (now : Int) :
    CacheEntry ρ :=
  { data := some payload, timestamp := some now,
    ttl := (entry.map (·.ttl)).getD 300000 }

/-- The error message thrown when the limiter denies and no cache exists. -/
def rateLimitMsg : String := "Rate limit exceeded and no cached data available"

/-- The quota-class test of `getCachedSheetData`'s catch block:
`error.message.includes('quota' | 'limit' | '429' | 'RATE_LIMIT')`. -/
def isQuotaError (msg : String) : Bool :=
  strIncludes msg "quota" || strIncludes msg "limit" ||
    strIncludes msg "429" || strIncludes msg "RATE_LIMIT"

/-- Everything one call of `getCachedSheetData` observes for one dataset
key: the clock, the cache entry under that key, the limiter's verdict, and
the outcome the remote store would give if actually fetched. -/
structure FetchEnv (ρ : Type) where
  now : Int
  entry : Option (CacheEntry ρ)
  limiterAllows : Bool
  remote : Except String (List ρ)

/-- What one call of `getCachedSheetData` produced: the returned rows or
thrown error, the cache entry afterwards, and whether a remote fetch
(budget consumption and call-log write) happened. -/
structure FetchOutcome (ρ : Type) where
  result : Except String (List ρ)
  entryAfter : Option (CacheEntry ρ)
  remoteCalled : Bool

/-- Method `getCachedSheetData` from `server.js`: fresh cache short-circuits;
a limiter denial serves the stale payload or throws `rateLimitMsg`; a
remote success stores and returns the payload; a quota-class remote
failure serves the stale payload when one exists; every other failure
propagates. -/
def getCachedSheetData {ρ : Type} (env : FetchEnv ρ) : FetchOutcome ρ :=
  if isCacheValid env.entry env.now then
    { result := .ok ((getCache env.entry).getD []), entryAfter := env.entry,
      remoteCalled := false }
  else if !env.limiterAllows then
    match getCache env.entry with
    | some stale => { result := .ok stale, entryAfter := env.entry, remoteCalled := false }
    | none => { result := .error rateLimitMsg, entryAfter := env.entry, remoteCalled := false }
  else
    match env.remote with
    | .ok rows =>
      { result := .ok rows, entryAfter := some (setCache env.entry rows env.now),
        remoteCalled := true }
    | .error msg =>
      if isQuotaError msg then
        match getCache env.entry with
        | some stale => { result := .ok stale, entryAfter := env.entry, remoteCalled := true }
        | none => { result := .error msg, entryAfter := env.entry, remoteCalled := true }
      else { result := .error msg, entryAfter := env.entry, remoteCalled := true }

/-- Method `safeGetCachedSheetData` from `server.js`: delegate to
`getCachedSheetData`; on any thrown error, force emergency mode on and
return the stale payload when one exists, an empty array otherwise.
Returns the data (never an error) with the emergency flag afterwards. -/
def safeGetCachedSheetData {ρ : Type} (env : FetchEnv ρ) (emergencyMode : Bool) :
    List ρ × Bool :=
  match (getCachedSheetData env).result with
  | .ok rows => (rows, emergencyMode)
  | .error _ => ((getCache env.entry).getD [], true)

/-- C2: `getCachedSheetData` (i) returns the cached payload with no remote
call when the entry is within its TTL (timestamps are positive epoch
milliseconds); (ii) on a limiter denial returns the stale payload when one
exists and otherwise throws the rate-limit error; (iii) on a quota-class
remote failure returns the stale payload when one exists and otherwise
propagates; (iv) propagates every other remote failure; (v) on a remote
success stores the payload under the current time and returns it. -/
theorem getCachedSheetData_facade_spec {ρ : Type} (env : FetchEnv ρ) :
    (∀ e d t, env.entry = some e → e.data = some d → e.timestamp = some t →
      0 < t → env.now - t < e.ttl →
      getCachedSheetData env = ⟨.ok d, env.entry, false⟩)
    ∧ (isCacheValid env.entry env.now = false → env.limiterAllows = false →
      getCachedSheetData env =
        match getCache env.entry with
        | some stale => ⟨.ok stale, env.entry, false⟩
        | none => ⟨.error rateLimitMsg, env.entry, false⟩)
    ∧ (∀ msg, isCacheValid env.entry env.now = false → env.limiterAllows = true →
      env.remote = .error msg → isQuotaError msg = true →
      getCachedSheetData env =
        match getCache env.entry with
        | some stale => ⟨.ok stale, env.entry, true⟩
        | none => ⟨.error msg, env.entry, true⟩)
    ∧ (∀ msg, isCacheValid env.entry env.now = false → env.limiterAllows = true →
      env.remote = .error msg → isQuotaError msg = false →
      getCachedSheetData env = ⟨.error msg, env.entry, true⟩)
    ∧ (∀ rows, isCacheValid env.entry env.now = false → env.limiterAllows = true →
      env.remote = .ok rows →
      getCachedSheetData env =
        ⟨.ok rows, some ⟨some rows, some env.now, ((env.entry.map (·.ttl)).getD 300000)⟩,
          true⟩) := by
  refine ⟨?_, ?_, ?_, ?_, ?_⟩
  · intro e d t he hd ht h0 httl
    have hv : isCacheValid env.entry env.now = true := by
      simp [isCacheValid, he, hd, ht]
      omega
    simp only [getCachedSheetData, hv, if_true]
    simp [getCache, he, hd]
  · intro hv hl
    simp [getCachedSheetData, hv, hl]
  · intro msg hv hl hr hq
    simp [getCachedSheetData, hv, hl, hr, hq]
  · intro msg hv hl hr hq
    simp [getCachedSheetData, hv, hl, hr, hq]
  · intro rows hv hl hr
    simp [getCachedSheetData, hv, hl, hr, setCache]

/-- Witness for `getCachedSheetData_facade_spec`: a concrete fresh cache
entry (payload `["a"]`, stamped at 5 with TTL 1000, read at 10) is served
with no remote call. -/
theorem getCachedSheetData_facade_spec_witness :
    getCachedSheetData
        (⟨10, some ⟨some ["a"], some 5, 1000⟩, true, .ok []⟩ : FetchEnv String) =
      ⟨.ok ["a"], some ⟨some ["a"], some 5, 1000⟩, false⟩ :=
  (getCachedSheetData_facade_spec _).1 ⟨some ["a"], some 5, 1000⟩ ["a"] 5
    rfl rfl rfl (by decide) (by decide)

/-- C6: `safeGetCachedSheetData` never throws (it is total into plain
data): whenever the wrapped fetch throws, it switches emergency mode on
and returns the stale payload for the key when one exists, and the empty
result set otherwise. -/
theorem safeGetCachedSheetData_never_throws {ρ : Type} (env : FetchEnv ρ)
    (emergencyMode : Bool) :
    (∀ msg, (getCachedSheetData env).result = .error msg →
      (safeGetCachedSheetData env emergencyMode).2 = true)
    ∧ (∀ msg stale, (getCachedSheetData env).result = .error msg →
      getCache env.entry = some stale →
      (safeGetCachedSheetData env emergencyMode).1 = stale)
    ∧ (∀ msg, (getCachedSheetData env).result = .error msg →
      getCache env.entry = none →
      (safeGetCachedSheetData env emergencyMode).1 = [])
    ∧ (∀ rows, (getCachedSheetData env).result = .ok rows →
      safeGetCachedSheetData env emergencyMode = (rows, emergencyMode)) := by
  refine ⟨?_, ?_, ?_, ?_⟩
  · intro msg h
    simp [safeGetCachedSheetData, h]
  · intro msg stale h hs
    simp [safeGetCachedSheetData, h, hs]
  · intro msg h hs
    simp [safeGetCachedSheetData, h, hs]
  · intro rows h
    simp [safeGetCachedSheetData, h]

/-- Witness for `safeGetCachedSheetData_never_throws`: with an empty cache,
a denied limiter and no stale payload the wrapped fetch throws, and the
safe wrapper returns `[]` and switches emergency mode on. -/
theorem safeGetCachedSheetData_never_throws_witness :
    (safeGetCachedSheetData (⟨10, none, false, .ok []⟩ : FetchEnv String) false).1 = []
    ∧ (safeGetCachedSheetData (⟨10, none, false, .ok []⟩ : FetchEnv String) false).2 = true :=
  ⟨(safeGetCachedSheetData_never_throws _ false).2.2.1 rateLimitMsg rfl rfl,
   (safeGetCachedSheetData_never_throws _ false).1 rateLimitMsg rfl⟩

/-! ## The keyed cache of `GoogleSheetsService` and emergency mode -/

/-- The cache key for a sheet name:
`sheetName.toLowerCase().replace(/\s+/g, '')`. -/
def cacheKeyOf (sheetName : String) : String :=
  String.mk ((sheetName.toList.map Char.toLower).filter (fun c => !c.isWhitespace))

/-- Object `this.cache` as a JavaScript object: an association list from key to
entry (insertion order preserved). -/
abbrev CacheMap : Type := List (String × CacheEntry String)

/-- Object `this.cache` as built by the `GoogleSheetsService` constructor.  Note
the key `onWork` (capital W) with its commented 1-minute TTL. -/
def initialCacheMap : CacheMap :=
  [("employees", ⟨none, none, 300000⟩),
   ("onWork", ⟨none, none, 60000⟩),
   ("main", ⟨none, none, 30000⟩),
   ("stats", ⟨none, none, 120000⟩)]

/-- Property read `this.cache[k]`. -/
def cacheLookup (m : CacheMap) (k : String) : Option (CacheEntry String) :=
  (m.find? (fun p => p.1 == k)).map (·.2)

/-- Property write `this.cache[k] = e` (replace, or append a new key). -/
def cacheStore (m : CacheMap) (k : String) (e : CacheEntry String) : CacheMap :=
  if m.any (fun p => p.1 == k) then
    m.map (fun p => if p.1 == k then (k, e) else p)
  else m ++ [(k, e)]

/-- Method `setCache(cacheKey, data)` on the keyed cache: create the entry with
the 300000 ms default TTL when the key is absent, then store the payload
stamped with the current time, preserving the entry's TTL. -/
def setCacheMap (m : CacheMap) (k : String) (payload : List String) (now : Int) : CacheMap :=
  cacheStore m k (setCache (cacheLookup m k) payload now)

/-- Method `setEmergencyMode(true)`: every entry's TTL becomes 3600000 ms. -/
def emergencyModeOn (m : CacheMap) : CacheMap :=
  m.map (fun p => (p.1, { p.2 with ttl := 3600000 }))

/-- One statement `this.cache[k].ttl = v`; `none` models the TypeError
thrown when the key is absent. -/
def setTtlAt (m : CacheMap) (k : String) (v : Int) : Option CacheMap :=
  if m.any (fun p => p.1 == k) then
    some (m.map (fun p => if p.1 == k then (p.1, { p.2 with ttl := v }) else p))
  else none

/-- Method `setEmergencyMode(false)`: restore the TTLs of the keys `employees`,
`onwork` (lowercase!), `main`, `stats`, in that order. -/
def emergencyModeOff (m : CacheMap) : Option CacheMap :=
  (setTtlAt m "employees" 300000).bind fun m1 =>
    (setTtlAt m1 "onwork" 60000).bind fun m2 =>
      (setTtlAt m2 "main" 30000).bind fun m3 =>
        setTtlAt m3 "stats" 120000

/-- C5 (refuting evaluation): the constructor configures the open-sessions
TTL of 60000 ms under key `onWork`, but every runtime access uses
`cacheKeyOf "ON WORK" = "onwork"`; so the entry actually consulted is
created by `setCache` with the 300000 ms default TTL, a 90-second-old
open-sessions payload is still reported valid, disabling emergency mode
throws when the `onwork` key was never created, and when it does not throw
it leaves the constructor's `onWork` entry at the emergency TTL 3600000
instead of restoring 60000. -/
theorem cache_ttl_key_mismatch_bug :
    cacheKeyOf "ON WORK" = "onwork"
    ∧ cacheLookup initialCacheMap (cacheKeyOf "ON WORK") = none
    ∧ (cacheLookup (setCacheMap initialCacheMap (cacheKeyOf "ON WORK") ["row"] 1000)
        (cacheKeyOf "ON WORK")).map (·.ttl) = some 300000
    ∧ isCacheValid (cacheLookup
        (setCacheMap initialCacheMap (cacheKeyOf "ON WORK") ["row"] 1000)
        (cacheKeyOf "ON WORK")) (1000 + 90000) = true
    ∧ emergencyModeOff (emergencyModeOn initialCacheMap) = none
    ∧ ((emergencyModeOff (emergencyModeOn
          (setCacheMap initialCacheMap (cacheKeyOf "ON WORK") ["row"] 1000))).map
        (fun m => (cacheLookup m "onWork").map (·.ttl))) = some (some 3600000) := by
  decide

/-! ## getEmployeeStatus (`GoogleSheetsService`) -/

/-- A row of the `ON WORK` sheet as `getEmployeeStatus` and the
reconciliation logic read it.  `clockInDateMs` is the `new Date(...)`
parse view of the raw clock-in string (none = falsy raw string or `NaN`);
`rowRef1`/`rowRef2` are the `parseInt` views of the two back-reference
columns (none = falsy raw string or `NaN`). -/
structure OnWorkRow where
  systemName : String
  employeeName : String
  clockIn : TS
  clockInDateMs : Option Int
  rowRef1 : Option Int
  rowRef2 : Option Int
deriving DecidableEq, Repr

/-- The `workRecord` object `getEmployeeStatus` returns for a working
employee. -/
structure WorkRecordR where
  row : OnWorkRow
  mainRowIndex : Option Int
  clockIn : TS
  systemName : String
  employeeName : String
deriving DecidableEq, Repr

/-- The result shape of `getEmployeeStatus`. -/
structure EmployeeStatusR where
  isOnWork : Bool
  workRecord : Option WorkRecordR
deriving DecidableEq, Repr

/-- The pure core of `getEmployeeStatus`: empty row set means not working;
otherwise the first row whose system-name or employee-name field matches
the input per `isNameMatch` yields a WORKING status carrying the row, the
back-reference (`แถวอ้างอิง` first, then `แถวในMain`), and the clock-in. -/
def statusFromRows (employee : String) (rows : List OnWorkRow) : EmployeeStatusR :=
  if rows.length = 0 then ⟨false, none⟩
  else
    match rows.find? (fun r =>
        isNameMatch employee r.systemName || isNameMatch employee r.employeeName) with
    | some r => ⟨true, some ⟨r, r.rowRef1.or r.rowRef2, r.clockIn, r.systemName, r.employeeName⟩⟩
    | none => ⟨false, none⟩

/-- Method `getEmployeeStatus` from `server.js`: fetch the open-sessions rows via
`safeGetCachedSheetData` (which never throws) and compute the status from
whatever rows that returns. -/
def getEmployeeStatus (employee : String) (env : FetchEnv OnWorkRow)
    (emergencyMode : Bool) : EmployeeStatusR :=
  statusFromRows employee (safeGetCachedSheetData env emergencyMode).1

/-- The guard of `clockIn`: it proceeds exactly when the reported status
is not WORKING. -/
def clockInProceeds (st : EmployeeStatusR) : Bool := !st.isOnWork

/-- A stale cached open-sessions row matching employee `somchai`. -/
def onWorkStaleRow : OnWorkRow :=
  ⟨"somchai", "somchai", .parsed 1 "2025-01-01", some 1, some 4, none⟩

/-- A fetch environment whose cache entry is expired (stale) and whose
remote fetch fails with a non-quota error. -/
def staleStatusEnv : FetchEnv OnWorkRow :=
  ⟨999999999, some ⟨some [onWorkStaleRow], some 5, 30000⟩, true, .error "boom"⟩

/-- C9 (refuting the unconditional claim): in `staleStatusEnv` the
underlying fetch throws, yet `getEmployeeStatus` reports the employee as
working (computed from the stale payload) rather than
`{ isOnWork: false, workRecord: null }`, and the subsequent `clockIn` is
blocked, not allowed to proceed. -/
theorem getEmployeeStatus_stale_counterexample :
    (getCachedSheetData staleStatusEnv).result = .error "boom"
    ∧ (getEmployeeStatus "somchai" staleStatusEnv false).isOnWork = true
    ∧ clockInProceeds (getEmployeeStatus "somchai" staleStatusEnv false) = false :=
  ⟨rfl, rfl, rfl⟩

/-- C9 (amended): `getEmployeeStatus` never throws (it is total); when the
underlying fetch throws it computes the status from the stale cached
payload, and when no stale payload exists it returns
`{ isOnWork: false, workRecord: null }` — identical to the status computed
from a genuinely empty open-sessions sheet — so a subsequent `clockIn` is
allowed to proceed. -/
theorem getEmployeeStatus_error_fallback (employee : String)
    (env : FetchEnv OnWorkRow) (em : Bool) :
    (∀ msg, (getCachedSheetData env).result = .error msg →
      getEmployeeStatus employee env em =
        statusFromRows employee ((getCache env.entry).getD []))
    ∧ (∀ msg, (getCachedSheetData env).result = .error msg →
      getCache env.entry = none →
      getEmployeeStatus employee env em = ⟨false, none⟩
      ∧ getEmployeeStatus employee env em = statusFromRows employee []
      ∧ clockInProceeds (getEmployeeStatus employee env em) = true) := by
  constructor
  · intro msg h
    simp [getEmployeeStatus, safeGetCachedSheetData, h]
  · intro msg h hs
    refine ⟨?_, ?_, ?_⟩ <;>
      simp [getEmployeeStatus, safeGetCachedSheetData, h, hs, statusFromRows,
        clockInProceeds]

/-- Witness for `getEmployeeStatus_error_fallback`: with an empty cache
and a denied limiter the fetch throws, there is no stale payload, and the
status is `{ isOnWork: false, workRecord: null }`. -/
theorem getEmployeeStatus_error_fallback_witness :
    getEmployeeStatus "somchai" (⟨10, none, false, .ok []⟩ : FetchEnv OnWorkRow) false
      = ⟨false, none⟩ :=
  ((getEmployeeStatus_error_fallback "somchai" ⟨10, none, false, .ok []⟩ false).2
    rateLimitMsg rfl rfl).1

/-! ## clockOut reconciliation (`GoogleSheetsService.clockOut`) -/

/-- A row of the `MAIN` ledger sheet as `clockOut` reads it.
`rowNumber` is the sheet row number (`row.rowNumber`), `clockInDateMs` the
`new Date(...)` parse view of the clock-in cell (none = falsy or `NaN`),
and `clockOut` the raw clock-out cell (`""` = falsy = still open). -/
structure MainRow where
  rowNumber : Int
  employee : String
  clockInDateMs : Option Int
  clockOut : String
deriving DecidableEq, Repr

/-- The candidate predicate of stages 2–4: name matches and the clock-out
cell is falsy. -/
def openMatch (employee : String) (r : MainRow) : Bool :=
  isNameMatch employee r.employee && r.clockOut = ""

/-- The `candidateRows` filter of `clockOut`. -/
def candidatesOf (rows : List MainRow) (employee : String) : List MainRow :=
  rows.filter (openMatch employee)

/-- The `forEach` loop of stage 3: the candidate whose `new Date` clock-in
is strictly closest to the session's clock-in instant `sess` (first wins
ties); candidates with an unusable clock-in are skipped. -/
def closestFold (sess : Int) (c : List MainRow) : Option (MainRow × Nat) :=
  c.foldl (fun acc r =>
    match r.clockInDateMs with
    | none => acc
    | some rm =>
      let d := (rm - sess).natAbs
      match acc with
      | none => some (r, d)
      | some (_, best) => if d < best then some (r, d) else acc) none

/-- Stage 1 (index match): a stored row index `> 1` addresses position
`index - 2` of the fetched ledger rows; accepted only if in range and the
row's employee name matches. -/
def stage1 (rows : List MainRow) (mainRowIndex : Option Int) (employee : String) :
    Option MainRow :=
  match mainRowIndex with
  | some idx =>
    if 1 < idx then
      match rows[(idx - 2).toNat]? with
      | some cand => if isNameMatch employee cand.employee then some cand else none
      | none => none
    else none
  | none => none

/-- Stage 2 (unique open-record-by-name match): accepted when exactly one
candidate exists. -/
def stage2 (rows : List MainRow) (employee : String) : Option MainRow :=
  if (candidatesOf rows employee).length = 1 then (candidatesOf rows employee).head?
  else none

/-- Stage 3 (closest-in-time match): with several candidates, the one
whose clock-in is nearest the session's clock-in, accepted only under
300000 ms. -/
def stage3 (rows : List MainRow) (sessMs : Option Int) (employee : String) :
    Option MainRow :=
  if 1 < (candidatesOf rows employee).length then
    match sessMs with
    | some s =>
      match closestFold s (candidatesOf rows employee) with
      | some (r, d) => if d < 300000 then some r else none
      | none => none
    | none => none
  else none

/-- Stage 4 (latest-open-record match): scan the ledger backwards for the
most recent open row with a matching name. -/
def stage4 (rows : List MainRow) (employee : String) : Option MainRow :=
  rows.reverse.find? (openMatch employee)

/-- The row-location logic of `clockOut` transcribed as it is written:
try the stored index; if that yields nothing, the candidate filter with
its unique/closest cases; if that yields nothing, the backward scan. -/
def findMainRow (rows : List MainRow) (mainRowIndex : Option Int)
    (sessMs : Option Int) (employee : String) : Option MainRow :=
  let m1 :=
    match mainRowIndex with
    | some idx =>
      if 1 < idx then
        match rows[(idx - 2).toNat]? with
        | some cand => if isNameMatch employee cand.employee then some cand else none
        | none => none
      else none
    | none => none
  match m1 with
  | some r => some r
  | none =>
    let cands := candidatesOf rows employee
    let m2 :=
      if cands.length = 1 then cands.head?
      else if 1 < cands.length then
        match sessMs with
        | some s =>
          match closestFold s cands with
          | some (r, d) => if d < 300000 then some r else none
          | none => none
        | none => none
      else none
    match m2 with
    | some r => some r
    | none => rows.reverse.find? (openMatch employee)

/-- The sequential fallback in `clockOut` is exactly the ordered
first-match composition of the four stages. -/
theorem findMainRow_eq_stages (rows : List MainRow) (i sessMs : Option Int)
    (e : String) :
    findMainRow rows i sessMs e =
      ((stage1 rows i e).or ((stage2 rows e).or ((stage3 rows sessMs e).or
        (stage4 rows e)))) := by
  unfold findMainRow stage1 stage2 stage3 stage4
  cases i with
  | none =>
    simp only [Option.none_or]
    by_cases h1 : (candidatesOf rows e).length = 1
    · simp [h1]
      cases (candidatesOf rows e).head? <;> simp
    · by_cases h2 : 1 < (candidatesOf rows e).length
      · simp only [h1, if_false, h2, if_true]
        cases sessMs with
        | none => simp
        | some s =>
          cases hc : closestFold s (candidatesOf rows e) with
          | none => simp [hc]
          | some p =>
            obtain ⟨r, d⟩ := p
            by_cases hd : d < 300000 <;> simp [hc, hd]
      · simp [h1, h2]
  | some idx =>
    by_cases hi : 1 < idx
    · simp only [hi, if_true]
      cases hg : rows[(idx - 2).toNat]? with
      | none =>
        simp only [Option.none_or]
        by_cases h1 : (candidatesOf rows e).length = 1
        · simp [h1]
          cases (candidatesOf rows e).head? <;> simp
        · by_cases h2 : 1 < (candidatesOf rows e).length
          · simp only [h1, if_false, h2, if_true]
            cases sessMs with
            | none => simp
            | some s =>
              cases hc : closestFold s (candidatesOf rows e) with
              | none => simp [hc]
              | some p =>
                obtain ⟨r, d⟩ := p
                by_cases hd : d < 300000 <;> simp [hc, hd]
          · simp [h1, h2]
      | some cand =>
        by_cases hn : isNameMatch e cand.employee
        · simp [hn]
        · simp only [hn, Bool.false_eq_true, if_false, Option.none_or]
          by_cases h1 : (candidatesOf rows e).length = 1
          · simp [h1]
            cases (candidatesOf rows e).head? <;> simp
          · by_cases h2 : 1 < (candidatesOf rows e).length
            · simp only [h1, if_false, h2, if_true]
              cases sessMs with
              | none => simp
              | some s =>
                cases hc : closestFold s (candidatesOf rows e) with
                | none => simp [hc]
                | some p =>
                  obtain ⟨r, d⟩ := p
                  by_cases hd : d < 300000 <;> simp [hc, hd]
            · simp [h1, h2]
    · simp only [hi, if_false, Option.none_or]
      by_cases h1 : (candidatesOf rows e).length = 1
      · simp [h1]
        cases (candidatesOf rows e).head? <;> simp
      · by_cases h2 : 1 < (candidatesOf rows e).length
        · simp only [h1, if_false, h2, if_true]
          cases sessMs with
          | none => simp
          | some s =>
            cases hc : closestFold s (candidatesOf rows e) with
            | none => simp [hc]
            | some p =>
              obtain ⟨r, d⟩ := p
              by_cases hd : d < 300000 <;> simp [hc, hd]
        · simp [h1, h2]

/-- Message `'ไม่พบข้อมูลการลงเวลาเข้างานที่ตรงกัน กรุณาตรวจสอบระบบ'` — the
"no matching record found" clock-out failure message. -/
def noMatchMessage : String := "no matching clock-in record found"

/-- Message `'บันทึกเวลาออกงานสำเร็จ'` — the clock-out success message. -/
def clockOutSuccessMessage : String := "clock-out saved"

/-- Message `'คุณต้องลงเวลาเข้างานก่อน ...'` — the not-clocked-in rejection. -/
def notClockedInMessage : String := "not clocked in"

/-- Message `'เกิดข้อผิดพลาด: ...'` prefix of the catch-all error result. -/
def errorMessagePrefix : String := "error: "

/-- Everything one `clockOut` call observes: the input name, the status
`getEmployeeStatus` reported, the fetched `MAIN` rows, the parse view of
the freshly formatted clock-out timestamp (plus the clock used when it is
falsy), and the outcomes of the two remote writes. -/
structure ClockOutEnv where
  employee : String
  status : EmployeeStatusR
  mainRows : List MainRow
  outTs : TS
  nowMs : Int
  updateOutcome : Except String Unit
  deleteOutcome : Except String Unit

/-- What `clockOut` returned and did: the structured result (`success`,
message, formatted hours) and the observable effects (which ledger row
was updated, whether the `ON WORK` row was deleted, whether the caches
were invalidated). -/
structure ClockOutRes where
  success : Bool
  message : String
  hours : Option ℚ
  ledgerUpdated : Option Int
  sessionDeleted : Bool
  cachesCleared : Bool
deriving DecidableEq, Repr

/-- Method `GoogleSheetsService.clockOut` transcribed: reject when not working;
compute hours with `calculateWorkingHours`; locate the ledger row with
`findMainRow`; fail with `noMatchMessage` touching nothing when no row is
found; on an update error return the catch-all failure; after a
successful update, attempt the `ON WORK` delete — a delete error is
swallowed (caches then stay uncleared) and the call still reports
success. -/
def clockOut (env : ClockOutEnv) : ClockOutRes :=
  if !env.status.isOnWork then
    ⟨false, notClockedInMessage, none, none, false, false⟩
  else
    match env.status.workRecord with
    | none => ⟨false, errorMessagePrefix, none, none, false, false⟩
    | some wr =>
      let hoursWorked := calculateWorkingHours wr.clockIn env.outTs env.nowMs
      match findMainRow env.mainRows wr.mainRowIndex wr.row.clockInDateMs env.employee with
      | none => ⟨false, noMatchMessage, none, none, false, false⟩
      | some r =>
        match env.updateOutcome with
        | .error e => ⟨false, errorMessagePrefix ++ e, none, none, false, false⟩
        | .ok _ =>
          match env.deleteOutcome with
          | .error _ =>
            ⟨true, clockOutSuccessMessage, some hoursWorked, some r.rowNumber, false, false⟩
          | .ok _ =>
            ⟨true, clockOutSuccessMessage, some hoursWorked, some r.rowNumber, true, true⟩

/-- An already-closed `MAIN` row for employee `anna` at sheet row 2. -/
def ledgerRowClosed : MainRow := ⟨2, "anna", some 0, "17:00"⟩

/-- The only open `MAIN` row for employee `anna`, at sheet row 3. -/
def ledgerRowOpen : MainRow := ⟨3, "anna", some 0, ""⟩

/-- C1 (refuting the unconditional determinism clause): in a ledger whose
only open row for `anna` is `ledgerRowOpen`, a stale stored index pointing
at the already-closed row 2 makes stage 1 accept that closed row — its
name matches — so the unique open row is *not* the row closed. -/
theorem clockOut_unique_open_row_counterexample :
    candidatesOf [ledgerRowClosed, ledgerRowOpen] "anna" = [ledgerRowOpen]
    ∧ findMainRow [ledgerRowClosed, ledgerRowOpen] (some 2) (some 0) "anna" =
        some ledgerRowClosed
    ∧ ledgerRowClosed ≠ ledgerRowOpen :=
  ⟨rfl, rfl, by decide⟩

/-- C1 (amended): `clockOut` locates the ledger row by the four stages in
order, stopping at the first match; when no stage yields a row it returns
the unsuccessful no-matching-record result and updates nothing; and when
the ledger holds exactly one open matching row, that row is the one
located provided the stored-index stage yields nothing or yields that very
row. -/
theorem clockOut_four_stage_locate :
    (∀ rows i sessMs e, findMainRow rows i sessMs e =
      ((stage1 rows i e).or ((stage2 rows e).or ((stage3 rows sessMs e).or
        (stage4 rows e)))))
    ∧ (∀ env wr, env.status.isOnWork = true → env.status.workRecord = some wr →
        findMainRow env.mainRows wr.mainRowIndex wr.row.clockInDateMs env.employee = none →
        clockOut env = ⟨false, noMatchMessage, none, none, false, false⟩)
    ∧ (∀ rows i sessMs e r, candidatesOf rows e = [r] →
        (stage1 rows i e = none ∨ stage1 rows i e = some r) →
        findMainRow rows i sessMs e = some r) := by
  refine ⟨findMainRow_eq_stages, ?_, ?_⟩
  · intro env wr h1 h2 h3
    simp [clockOut, h1, h2, h3]
  · intro rows i sessMs e r hc hs
    have h2 : stage2 rows e = some r := by simp [stage2, hc]
    rw [findMainRow_eq_stages]
    rcases hs with hs | hs <;> simp [hs, h2]

/-- The unique open row used in the witness. -/
def uniqueOpenRow : MainRow := ⟨5, "bob", some 0, ""⟩

/-- Witness for `clockOut_four_stage_locate`: with no stored index and a
single open matching row, that row is located. -/
theorem clockOut_four_stage_locate_witness :
    findMainRow [uniqueOpenRow] none none "bob" = some uniqueOpenRow :=
  clockOut_four_stage_locate.2.2 [uniqueOpenRow] none none "bob" uniqueOpenRow
    rfl (Or.inl rfl)

/-- C10: when the ledger update succeeds and the subsequent `ON WORK`
row deletion throws, the error is swallowed: `clockOut` still returns
`success: true` with the computed hours, while the session row stays in
place (and the caches stay uncleared) — the employee can still appear
working after a reported-successful clock-out. -/
theorem clockOut_delete_error_swallowed (env : ClockOutEnv) (wr : WorkRecordR)
    (r : MainRow) (e : String) :
    env.status.isOnWork = true → env.status.workRecord = some wr →
    findMainRow env.mainRows wr.mainRowIndex wr.row.clockInDateMs env.employee = some r →
    env.updateOutcome = .ok () →
    env.deleteOutcome = .error e →
    clockOut env = ⟨true, clockOutSuccessMessage,
      some (calculateWorkingHours wr.clockIn env.outTs env.nowMs),
      some r.rowNumber, false, false⟩ := by
  intro h1 h2 h3 h4 h5
  simp [clockOut, h1, h2, h3, h4, h5]

/-- The session record used in the `clockOut` delete-error witness. -/
def demoWorkRecord : WorkRecordR :=
  ⟨⟨"bob", "bob", .parsed 0 "2025-01-01", some 0, some 2, none⟩,
   some 2, .parsed 0 "2025-01-01", "bob", "bob"⟩

/-- A clock-out environment whose ledger update succeeds and whose
session-row delete throws. -/
def demoClockOutEnv : ClockOutEnv :=
  ⟨"bob", ⟨true, some demoWorkRecord⟩, [⟨2, "bob", some 0, ""⟩],
   .parsed 3600000 "2025-01-01", 0, .ok (), .error "delete failed"⟩

/-- Witness for `clockOut_delete_error_swallowed`: the concrete call
reports success with 1.00 worked hour while the session row survives. -/
theorem clockOut_delete_error_swallowed_witness :
    clockOut demoClockOutEnv =
      ⟨true, clockOutSuccessMessage, some 1, some 2, false, false⟩ := by
  have h := clockOut_delete_error_swallowed demoClockOutEnv demoWorkRecord
    ⟨2, "bob", some 0, ""⟩ "delete failed" rfl rfl rfl rfl rfl
  rw [h]
  norm_num [demoClockOutEnv, demoWorkRecord, calculateWorkingHours]

/-! ## The partial-cell ledger update of `clockOut` -/

/-- The batch update of `clockOut`: writes of `timestamp`, the exit
coordinates, the exit location label and the formatted hours into cells
`F`, `I`, `J`, `K` of the located row — 0-based columns 5, 8, 9, 10 of an
eleven-column (`A`–`K`) ledger row. -/
def clockOutCellUpdates (row : List String) (ts coords loc hours : String) :
    List String :=
  (((row.set 5 ts).set 8 coords).set 9 loc).set 10 hours

/-- An eleven-column ledger row with pairwise-distinct cell values. -/
def demoLedgerRow : List String :=
  ["a", "b", "c", "d", "e", "f", "g", "h", "i", "j", "k"]

/-- C8 (refuting the count of five): on a concrete eleven-column row with
four fresh values the positions whose content changes are exactly columns
5, 8, 9, 10 — four cells, not five. -/
theorem clockOut_update_four_cells_counterexample :
    ((List.range 11).filter
        (fun i => (clockOutCellUpdates demoLedgerRow "t" "c" "l" "h")[i]? ≠
          demoLedgerRow[i]?)) = [5, 8, 9, 10]
    ∧ ((List.range 11).filter
        (fun i => (clockOutCellUpdates demoLedgerRow "t" "c" "l" "h")[i]? ≠
          demoLedgerRow[i]?)).length = 4
    ∧ ¬ ((List.range 11).filter
        (fun i => (clockOutCellUpdates demoLedgerRow "t" "c" "l" "h")[i]? ≠
          demoLedgerRow[i]?)).length = 5 := by
  refine ⟨?_, ?_, ?_⟩ <;> decide

/-- C8 (amended): a successful `clockOut` writes exactly the four cells
F (clock-out time), I (exit coordinates), J (exit location label) and
K (worked hours) of the located row; every other cell — the clock-in cell
(column D, index 3) in particular — is left unchanged, and the row keeps
its length (partial-cell update, not a full-row rewrite). -/
theorem clockOut_partial_update_frame (row : List String)
    (ts coords loc hours : String) :
    (clockOutCellUpdates row ts coords loc hours).length = row.length
    ∧ (∀ i, i ≠ 5 → i ≠ 8 → i ≠ 9 → i ≠ 10 →
        (clockOutCellUpdates row ts coords loc hours)[i]? = row[i]?)
    ∧ (clockOutCellUpdates row ts coords loc hours)[3]? = row[3]?
    ∧ (row.length = 11 →
        (clockOutCellUpdates row ts coords loc hours)[5]? = some ts
        ∧ (clockOutCellUpdates row ts coords loc hours)[8]? = some coords
        ∧ (clockOutCellUpdates row ts coords loc hours)[9]? = some loc
        ∧ (clockOutCellUpdates row ts coords loc hours)[10]? = some hours) := by
  refine ⟨?_, ?_, ?_, ?_⟩
  · simp [clockOutCellUpdates]
  · intro i h5 h8 h9 h10
    unfold clockOutCellUpdates
    rw [List.getElem?_set_ne (by omega), List.getElem?_set_ne (by omega),
      List.getElem?_set_ne (by omega), List.getElem?_set_ne (by omega)]
  · unfold clockOutCellUpdates
    rw [List.getElem?_set_ne (by omega), List.getElem?_set_ne (by omega),
      List.getElem?_set_ne (by omega), List.getElem?_set_ne (by omega)]
  · intro hlen
    unfold clockOutCellUpdates
    refine ⟨?_, ?_, ?_, ?_⟩
    · rw [List.getElem?_set_ne (by omega), List.getElem?_set_ne (by omega),
        List.getElem?_set_ne (by omega), List.getElem?_set_eq_of_lt]
      simp [hlen]
    · rw [List.getElem?_set_ne (by omega), List.getElem?_set_ne (by omega),
        List.getElem?_set_eq_of_lt]
      simp [hlen]
    · rw [List.getElem?_set_ne (by omega), List.getElem?_set_eq_of_lt]
      simp [hlen]
    · rw [List.getElem?_set_eq_of_lt]
      simp [hlen]

/-- Witness for `clockOut_partial_update_frame`: on the concrete row the
clock-in cell keeps its value and cell F receives the timestamp. -/
theorem clockOut_partial_update_frame_witness :
    (clockOutCellUpdates demoLedgerRow "t" "c" "l" "h")[3]? = demoLedgerRow[3]?
    ∧ (clockOutCellUpdates demoLedgerRow "t" "c" "l" "h")[5]? = some "t" :=
  ⟨(clockOut_partial_update_frame demoLedgerRow "t" "c" "l" "h").2.2.1,
   ((clockOut_partial_update_frame demoLedgerRow "t" "c" "l" "h").2.2.2 rfl).1⟩

/-! ## Missed-checkout sweeper (`checkAndHandleMissedCheckouts` /
`processMissedCheckout`) -/

/-- The fixed note written into column E on a forced close. -/
def missedCheckoutNote : String := "ลืมลงเวลาออก (ระบบอัตโนมัติ)"

/-- Constant `CONFIG.AUTO_CHECKOUT.EXEMPT_EMPLOYEES` from `config/index.js`. -/
def exemptEmployees : List String := ["1017-เปรมชัย ทองสงคราม"]

/-- Function `isEmployeeExempt` from `server.js`: a falsy name is never exempt;
otherwise some exemption-list entry whose normalized form equals, is
contained in, or contains the normalized input name. -/
def isEmployeeExempt (employeeName : String) (exemptList : List String) : Bool :=
  if employeeName = "" then false
  else
    exemptList.any (fun exemptName =>
      let ni := normalizeEmployeeName employeeName
      let nx := normalizeEmployeeName exemptName
      ni = nx || strIncludes ni nx || strIncludes nx ni)

/-- An open `ON WORK` row as the sweeper reads it: the two name fields,
the clock-in parse view, and the `parseInt` view of
(`แถวในMain || แถวอ้างอิง`). -/
structure SweepSession where
  employeeName : String
  systemName : String
  clockIn : TS
  mainRowIndex : Option Int
deriving DecidableEq, Repr

/-- Expression `workRow.get('ชื่อพนักงาน') || workRow.get('ชื่อในระบบ')`. -/
def sweepName (s : SweepSession) : String :=
  if s.employeeName ≠ "" then s.employeeName else s.systemName

/-- What the sweeper did with one session. -/
inductive SweepAction where
  | skippedMissing
  | exempted
  | skippedNotToday
  | processed
  | failed (e : String)
deriving DecidableEq, Repr

/-- The observable effect of sweeping one session: the ledger write (row
number, note, synthesized clock-out string, hours), whether the session
row was deleted, and whether the caches were invalidated. -/
structure SweepOutcome where
  action : SweepAction
  ledgerUpdate : Option (Int × String × String × ℚ)
  sessionDeleted : Bool
  cachesCleared : Bool
deriving DecidableEq, Repr

/-- One iteration of the sweeper loop plus `processMissedCheckout`,
transcribed: skip on missing name or clock-in; skip (leaving the session
open) when exempt; skip when the clock-in date is not today; otherwise
compute hours from the cutoff with `calculateWorkingHours`, update cells
E/F/K of the ledger row at the stored index — skipping the ledger update
entirely when no numeric index is stored — then delete the session row
and clear the open-sessions and ledger caches.  `cutoffStr` is the
formatted cutoff written to the sheet, `cutoffTs` its parse view fed to
the hours calculation; an update error aborts before the delete, a delete
error aborts after the update but before the cache clears. -/
def sweepOne (exempt : List String) (today : String) (cutoffStr : String)
    (cutoffTs : TS) (updateOutcome deleteOutcome : Except String Unit)
    (s : SweepSession) : SweepOutcome :=
  let name := sweepName s
  if name = "" || s.clockIn = TS.empty then ⟨.skippedMissing, none, false, false⟩
  else if isEmployeeExempt name exempt then ⟨.exempted, none, false, false⟩
  else if s.clockIn.dateOf ≠ today then ⟨.skippedNotToday, none, false, false⟩
  else
    let hours := calculateWorkingHours s.clockIn cutoffTs 0
    match s.mainRowIndex with
    | some idx =>
      match updateOutcome with
      | .error e => ⟨.failed e, none, false, false⟩
      | .ok _ =>
        match deleteOutcome with
        | .error e =>
          ⟨.failed e, some (idx, missedCheckoutNote, cutoffStr, hours), false, false⟩
        | .ok _ =>
          ⟨.processed, some (idx, missedCheckoutNote, cutoffStr, hours), true, true⟩
    | none =>
      match deleteOutcome with
      | .error e => ⟨.failed e, none, false, false⟩
      | .ok _ => ⟨.processed, none, true, true⟩

/-- A non-exempt session clocked in today whose stored ledger index is
missing. -/
def noIndexSession : SweepSession := ⟨"somchai", "", .parsed 100 "2025-10-10", none⟩

/-- C7 (refuting the unconditional claim): sweeping `noIndexSession`
(non-exempt, clocked in today, no stored row index) deletes the
WorkSession row while updating no ledger row at all — the claimed
note/clock-out/hours write to "the ledger row located by the stored row
index" does not happen. -/
theorem sweeper_no_index_counterexample :
    (sweepOne ["guard"] "2025-10-10" "10/10/2025 23:59:59"
        (.parsed 200 "2025-10-10") (.ok ()) (.ok ()) noIndexSession).action =
      .processed
    ∧ (sweepOne ["guard"] "2025-10-10" "10/10/2025 23:59:59"
        (.parsed 200 "2025-10-10") (.ok ()) (.ok ()) noIndexSession).sessionDeleted = true
    ∧ (sweepOne ["guard"] "2025-10-10" "10/10/2025 23:59:59"
        (.parsed 200 "2025-10-10") (.ok ()) (.ok ()) noIndexSession).ledgerUpdate = none :=
  ⟨rfl, rfl, rfl⟩

/-- C7 (amended): the exemption test agrees with the Identity Matcher
(`isNameMatch`) on non-empty names; an exempt session is skipped and
remains open (nothing deleted, nothing written); a session whose clock-in
date is not the current date is skipped; an eligible session with a
stored numeric row index gets the fixed note, the formatted cutoff
clock-out and the `calculateWorkingHours` hours written to its ledger
row, its session row deleted and the caches invalidated; without a stored
index the ledger write is skipped but the session row is still deleted. -/
theorem sweeper_missed_checkout_spec :
    (∀ name l, name ≠ "" → (∀ x ∈ l, x ≠ "") →
      isEmployeeExempt name l = l.any (fun x => isNameMatch name x))
    ∧ (∀ exempt today cs ct uo dd s, sweepName s ≠ "" → s.clockIn ≠ TS.empty →
      isEmployeeExempt (sweepName s) exempt = true →
      sweepOne exempt today cs ct uo dd s = ⟨.exempted, none, false, false⟩)
    ∧ (∀ exempt today cs ct uo dd s, sweepName s ≠ "" → s.clockIn ≠ TS.empty →
      isEmployeeExempt (sweepName s) exempt = false →
      s.clockIn.dateOf ≠ today →
      sweepOne exempt today cs ct uo dd s = ⟨.skippedNotToday, none, false, false⟩)
    ∧ (∀ exempt today cs ct dd s idx, sweepName s ≠ "" → s.clockIn ≠ TS.empty →
      isEmployeeExempt (sweepName s) exempt = false →
      s.clockIn.dateOf = today → s.mainRowIndex = some idx →
      sweepOne exempt today cs ct (.ok ()) dd s =
        match dd with
        | .ok _ => ⟨.processed,
            some (idx, missedCheckoutNote, cs, calculateWorkingHours s.clockIn ct 0),
            true, true⟩
        | .error e => ⟨.failed e,
            some (idx, missedCheckoutNote, cs, calculateWorkingHours s.clockIn ct 0),
            false, false⟩)
    ∧ (∀ exempt today cs ct uo s, sweepName s ≠ "" → s.clockIn ≠ TS.empty →
      isEmployeeExempt (sweepName s) exempt = false →
      s.clockIn.dateOf = today → s.mainRowIndex = none →
      sweepOne exempt today cs ct uo (.ok ()) s = ⟨.processed, none, true, true⟩) := by
  refine ⟨?_, ?_, ?_, ?_, ?_⟩
  · intro name l hn hl
    induction l with
    | nil => simp [isEmployeeExempt, hn]
    | cons x xs ih =>
      have hx : x ≠ "" := hl x (by simp)
      have hxs := ih (fun y hy => hl y (by simp [hy]))
      simp only [isEmployeeExempt, hn, if_false, List.any_cons] at hxs ⊢
      rw [hxs]
      simp [isNameMatch, hn, hx]
  · intro exempt today cs ct uo dd s hn hc hx
    simp [sweepOne, hn, hc, hx]
  · intro exempt today cs ct uo dd s hn hc hx hd
    simp [sweepOne, hn, hc, hx, hd]
  · intro exempt today cs ct dd s idx hn hc hx hd hi
    cases dd <;> simp [sweepOne, hn, hc, hx, hd, hi]
  · intro exempt today cs ct uo s hn hc hx hd hi
    simp [sweepOne, hn, hc, hx, hd, hi]

/-- Witness for `sweeper_missed_checkout_spec`: a session for the exempt
employee `guard`, open past cutoff, is skipped and remains open. -/
theorem sweeper_missed_checkout_spec_witness :
    sweepOne ["guard"] "2025-10-10" "10/10/2025 23:59:59"
        (.parsed 200 "2025-10-10") (.ok ()) (.ok ())
        ⟨"guard", "", .parsed 100 "2025-10-10", some 7⟩ =
      ⟨.exempted, none, false, false⟩ :=
  sweeper_missed_checkout_spec.2.1 ["guard"] "2025-10-10" "10/10/2025 23:59:59"
    (.parsed 200 "2025-10-10") (.ok ()) (.ok ())
    ⟨"guard", "", .parsed 100 "2025-10-10", some 7⟩
    (by decide) (by decide) (by decide)
